import Mathlib

set_option autoImplicit false

namespace Gastown

/-! Shallow embedding of the dispatch and hand-off subsystem of gastown:
the convoy queue (internal/cmd/convoy_queue.go) and the sling/recycle
hand-off commands (internal/cmd/recycle.go).  External collaborators
(the bd issue store, tmux, the filesystem, environment variables) are
modelled as explicit oracle fields of environment records; the control
flow of the embedded functions follows the Go source line by line. -/

/-- Character-list version of the leading-match test; the string
helpers below are written over List Char so that every one of them
evaluates inside the kernel. -/
def listStartsWith : List Char → List Char → Bool
  | _, [] => true
  | [], _ :: _ => false
  | a :: as, b :: bs => a == b && listStartsWith as bs

/-- Mirror of strings.HasPrefix from the Go standard library. -/
def strStartsWith (s t : String) : Bool := listStartsWith s.data t.data

/-- Mirror of strings.HasSuffix from the Go standard library. -/
def strEndsWith (s suf : String) : Bool :=
  listStartsWith s.data.reverse suf.data.reverse

/-- Drop the first n characters of a string. -/
def strDrop (s : String) (n : Nat) : String := ⟨s.data.drop n⟩

/-- Drop the last n characters of a string. -/
def strDropRight (s : String) (n : Nat) : String :=
  ⟨s.data.take (s.data.length - n)⟩

/-- Character count of a string. -/
def strLength (s : String) : Nat := s.data.length

/-- Mirror of strings.ToLower (character-wise). -/
def strToLower (s : String) : String := ⟨s.data.map Char.toLower⟩

/-- String containment, mirroring strings.Contains from the Go standard
library as used by buildRestartCommand and the error-text classifier. -/
def strContains (s sub : String) : Bool :=
  (List.range (strLength s + 1)).any fun i => listStartsWith (s.data.drop i) sub.data

/-- Mirror of strings.TrimPrefix: drop a leading occurrence of t. -/
def trimLeading (s t : String) : String :=
  if strStartsWith s t then strDrop s (strLength t) else s

/-- Mirror of strings.TrimSuffix: drop a trailing occurrence of suf. -/
def trimTrailing (s suf : String) : String :=
  if strEndsWith s suf then strDropRight s (strLength suf) else s

/-- A tracked-issue row as returned by getTrackedIssues: id, title,
status and assignee of one issue tracked by the convoy. -/
structure TrackedIssue where
  id : String
  title : String
  status : String
  assignee : String
deriving Repr, DecidableEq

/-- The part of a bead record that runConvoyQueue reads through
getBeadInfo: its labels. -/
structure BeadInfo where
  labels : List String
deriving Repr, DecidableEq

/-- The external collaborators consulted by runConvoyQueue, as oracles:
getBeadInfo (none models a failed per-issue lookup), resolveRigForBead
(empty string models town-root or unknown rig, with townRoot absorbed),
hasQueuedLabel (defined outside src), and the success of enqueueBead per
issue id. -/
structure QueueStore where
  getBeadInfo : String → Option BeadInfo
  resolveRigForBead : String → String
  hasQueuedLabel : List String → Bool
  enqueueBeadOk : String → Bool

/-- The four skip counters of runConvoyQueue. -/
structure SkipCounts where
  closed : Nat
  assigned : Nat
  queued : Nat
  noRig : Nat
deriving Repr, DecidableEq

/-- The queueCandidate record built inside runConvoyQueue. -/
structure QueueCandidate where
  id : String
  title : String
  rigName : String
deriving Repr, DecidableEq

/-- Outcome of the filtering loop of runConvoyQueue for one tracked
issue: one of the four skip buckets, the warn-and-drop branch taken when
getBeadInfo fails, or candidacy with the resolved rig. -/
inductive IssueBucket where
  | closedSkip
  | assignedSkip
  | droppedWarn
  | queuedSkip
  | noRigSkip
  | candidate (rigName : String)
deriving Repr, DecidableEq

/-- The closed-status test of the loop: status is closed or tombstone. -/
def isClosedStatus (t : TrackedIssue) : Bool :=
  t.status == "closed" || t.status == "tombstone"

/-- The assigned-skip test of the loop: assignee non-empty and force not
set. -/
def isAssignedSkip (force : Bool) (t : TrackedIssue) : Bool :=
  t.assignee != "" && !force

/-- The body of the filtering loop of runConvoyQueue, deciding which
bucket one tracked issue falls into, in the exact order of the source:
closed check, assigned check, label lookup (with warn-and-drop on
failure), queued-label check, rig resolution. -/
def classifyIssue (st : QueueStore) (force : Bool) (t : TrackedIssue) : IssueBucket :=
  if isClosedStatus t then .closedSkip
  else if isAssignedSkip force t then .assignedSkip
  else
    match st.getBeadInfo t.id with
    | none => .droppedWarn
    | some info =>
      if st.hasQueuedLabel info.labels then .queuedSkip
      else
        let rigName := st.resolveRigForBead t.id
        if rigName == "" then .noRigSkip
        else .candidate rigName

/-- The filtering loop of runConvoyQueue over the tracked issues,
returning the candidate list (in input order) and the four skip
counters. -/
def processTracked (st : QueueStore) (force : Bool) :
    List TrackedIssue → List QueueCandidate × SkipCounts
  | [] => ([], ⟨0, 0, 0, 0⟩)
  | t :: rest =>
    let r := processTracked st force rest
    match classifyIssue st force t with
    | .closedSkip => (r.1, { r.2 with closed := r.2.closed + 1 })
    | .assignedSkip => (r.1, { r.2 with assigned := r.2.assigned + 1 })
    | .droppedWarn => r
    | .queuedSkip => (r.1, { r.2 with queued := r.2.queued + 1 })
    | .noRigSkip => (r.1, { r.2 with noRig := r.2.noRig + 1 })
    | .candidate rigName => (⟨t.id, t.title, rigName⟩ :: r.1, r.2)

/-- Result of the placement loop of runConvoyQueue: which candidate ids
enqueueBead was invoked for, how many placements succeeded, and the ids
whose placement failed (reported individually). -/
structure PlaceOutcome where
  attempted : List String
  succeeded : Nat
  failedIds : List String
deriving Repr, DecidableEq

/-- The placement loop of runConvoyQueue: every candidate is attempted;
a failure is recorded per issue id and the loop continues. -/
def placeCandidates (ok : String → Bool) : List QueueCandidate → PlaceOutcome
  | [] => ⟨[], 0, []⟩
  | c :: rest =>
    let r := placeCandidates ok rest
    if ok c.id then ⟨c.id :: r.attempted, r.succeeded + 1, r.failedIds⟩
    else ⟨c.id :: r.attempted, r.succeeded, c.id :: r.failedIds⟩

/-- The observable outcome of one runConvoyQueue invocation: candidate
set, skip counters, the placements attempted, and the reported
queued/total counts. -/
structure QueueOutcome where
  candidates : List QueueCandidate
  skips : SkipCounts
  attemptedPlacements : List String
  failedPlacements : List String
  queuedCount : Nat
  totalCount : Nat
deriving Repr, DecidableEq

/-- runConvoyQueue after the tracked issues have been fetched: the
filtering loop runs first, unconditionally; only then is the dry-run
flag consulted, a dry run stopping before any placement and a real run
placing every candidate via enqueueBead. -/
def runConvoyQueue (st : QueueStore) (force dryRun : Bool)
    (tracked : List TrackedIssue) : QueueOutcome :=
  let r := processTracked st force tracked
  if dryRun then ⟨r.1, r.2, [], [], 0, r.1.length⟩
  else
    let p := placeCandidates st.enqueueBeadOk r.1
    ⟨r.1, r.2, p.attempted, p.failedIds, p.succeeded, r.1.length⟩

/-- A sample store in which every label lookup fails. -/
def failStore : QueueStore where
  getBeadInfo := fun _ => none
  resolveRigForBead := fun _ => "gastown"
  hasQueuedLabel := fun _ => false
  enqueueBeadOk := fun _ => true

/-- A sample store in which every bead carries the queue marker label
and no rig resolves. -/
def queuedStore : QueueStore where
  getBeadInfo := fun _ => some ⟨["gt:queued"]⟩
  resolveRigForBead := fun _ => ""
  hasQueuedLabel := fun ls => ls.contains "gt:queued"
  enqueueBeadOk := fun _ => true

/-- A sample open, unassigned tracked issue. -/
def openIssue : TrackedIssue := ⟨"gt-b", "Open bead", "open", ""⟩

/-- A sample open issue that is assigned. -/
def assignedIssue : TrackedIssue := ⟨"gt-a", "Assigned bead", "in_progress", "joe"⟩

/-- Observable external effects issued by the hand-off commands: wisp
(WorkHook) writes, hand-off mail, tmux respawn-pane (the restart) and
tmux switch-client (the view switch). -/
inductive Action where
  | writeWisp (agentID beadID : String)
  | sendMail (subject message : String)
  | respawnPane (pane cmd : String)
  | switchClient (session : String)
deriving Repr, DecidableEq

/-- Mirror of verifyBeadExists: runs bd show on the bead and maps any
failure of that command to a not-found report.  The oracle bdShow gives
the failure text of the external bd show invocation per bead id, none
meaning success. -/
def verifyBeadExists (bdShow : String → Option String) (beadID : String) :
    Except String Unit :=
  match bdShow beadID with
  | none => .ok ()
  | some _ => .error ("bead " ++ beadID ++ " not found (bd show failed)")

/-- Modelled from the spec: the issue-store failure-text classifier
isDoltOrWispError of package beads, whose definition is not under src
(src holds only its test TestIsDoltOrWispError).  Per the spec it
classifies process crashes, segmentation-style faults, missing backing
tables (the wisps table) and low-level runtime faults in the failure
text as storage-layer infrastructure faults; absence of an error, or a
plain failure such as a constraint violation or a not-found report, is
not an infrastructure fault. -/
def isDoltOrWispError (err : Option String) : Bool :=
  match err with
  | none => false
  | some msg =>
    strContains msg "panic:" || strContains msg "runtime error" ||
      strContains msg "signal" || strContains msg "SIGSEGV" ||
      strContains msg "segmentation" ||
      (strContains msg "table" && strContains msg "wisps") ||
      strContains msg "dolthub/dolt"

/-- The environment consulted by runSling and triggerHandoff: the bd
show oracle, the identity-bearing environment variables (empty string
meaning unset), cwd-based crew detection, tmux state, clone-root
detection, and the success of the wisp write, the hand-off mail send and
the respawn command. -/
structure SlingEnv where
  bdShow : String → Option String
  gtCrew : String
  gtRig : String
  gtPolecat : String
  cwdCrew : Option (String × String)
  tmuxEnv : String
  insideTmux : Bool
  tmuxPane : String
  currentSession : Option String
  cloneRoot : Option String
  writeWispOk : Bool
  mailOk : Bool
  respawnOk : Bool

/-- Mirror of detectAgentIdentity: GT_CREW/GT_RIG first, then
GT_POLECAT/GT_RIG, then cwd detection, then session-name markers read
through the TMUX variable; otherwise the identity is unresolved. -/
def detectAgentIdentity (e : SlingEnv) : Except String String :=
  if e.gtCrew != "" && e.gtRig != "" then
    .ok (e.gtRig ++ "/crew/" ++ e.gtCrew)
  else if e.gtPolecat != "" && e.gtRig != "" then
    .ok (e.gtRig ++ "/polecats/" ++ e.gtPolecat)
  else
    match e.cwdCrew with
    | some rc => .ok (rc.1 ++ "/crew/" ++ rc.2)
    | none =>
      if e.tmuxEnv != "" then
        match e.currentSession with
        | some sessionName =>
          if sessionName == "gt-mayor" then .ok "mayor"
          else if sessionName == "gt-deacon" then .ok "deacon"
          else if strEndsWith sessionName "-witness" then
            .ok (trimTrailing (trimLeading sessionName "gt-") "-witness" ++ "/witness")
          else if strEndsWith sessionName "-refinery" then
            .ok (trimTrailing (trimLeading sessionName "gt-") "-refinery" ++ "/refinery")
          else .error "cannot determine agent identity - set GT_RIG/GT_CREW or run from clone directory"
        | none => .error "cannot determine agent identity - set GT_RIG/GT_CREW or run from clone directory"
      else .error "cannot determine agent identity - set GT_RIG/GT_CREW or run from clone directory"

/-- Mirror of buildRestartCommand: total map from a session name to the
role-specific resume command, failing on an unknown session pattern. -/
def buildRestartCommand (sessionName : String) : Except String String :=
  if sessionName == "gt-mayor" then .ok "gt may at"
  else if sessionName == "gt-deacon" then .ok "gt dea at"
  else if strContains sessionName "-crew-" then .ok "gt crew at"
  else if strEndsWith sessionName "-witness" then .ok "gt wit at"
  else if strEndsWith sessionName "-refinery" then .ok "gt ref at"
  else .error ("unknown session type: " ++ sessionName ++ " (try specifying role explicitly)")

/-- Mirror of triggerHandoff: refuses polecats, requires tmux and the
pane variable, builds the restart command for the current session, sends
the hand-off mail (best effort, its failure never aborts) and respawns
the caller pane.  Returns the command result together with the effects
issued. -/
def triggerHandoff (e : SlingEnv) (slingSubject slingMessage : String)
    (_agentID beadID : String) : Except String Unit × List Action :=
  if e.gtPolecat != "" then
    (.error "polecats cannot sling - use gt done for handoff", [])
  else if !e.insideTmux then (.error "not running in tmux - cannot restart", [])
  else if e.tmuxPane == "" then (.error "TMUX_PANE not set", [])
  else
    match e.currentSession with
    | none => (.error "getting session", [])
    | some currentSession =>
      match buildRestartCommand currentSession with
      | .error m => (.error m, [])
      | .ok restartCmd =>
        let subject :=
          if slingSubject == "" then "SLUNG: " ++ beadID
          else "SLUNG: " ++ slingSubject
        let message :=
          if slingMessage == "" then
            "Work slung onto hook. Run bd show " ++ beadID ++ " for details."
          else slingMessage
        ((if e.respawnOk then .ok () else .error "respawning pane"),
          [Action.sendMail subject message,
            Action.respawnPane e.tmuxPane restartCmd])

/-- Mirror of runSling: verify the bead, detect the identity and the
clone root, stop before any effect under dry-run, write the wisp to the
hook, then trigger the hand-off.  Returns the command result together
with the effects issued, in order. -/
def runSling (e : SlingEnv) (beadID slingSubject slingMessage : String)
    (dryRun : Bool) : Except String Unit × List Action :=
  match verifyBeadExists e.bdShow beadID with
  | .error m => (.error m, [])
  | .ok _ =>
    match detectAgentIdentity e with
    | .error m => (.error ("detecting agent identity: " ++ m), [])
    | .ok agentID =>
      match e.cloneRoot with
      | none => (.error "detecting clone root: not in a git repository", [])
      | some _ =>
        if dryRun then (.ok (), [])
        else if !e.writeWispOk then (.error "writing wisp", [])
        else
          let h := triggerHandoff e slingSubject slingMessage agentID beadID
          (h.1, Action.writeWisp agentID beadID :: h.2)

/-- The environment consulted by runRecycle: tmux state, the
identity-bearing environment variables, cwd-based crew detection, the
session-existence and pane-lookup oracles, and the success of the
respawn and switch-client commands. -/
structure RecycleEnv where
  insideTmux : Bool
  tmuxPane : String
  currentSession : Option String
  gtRig : String
  gtCrew : String
  cwdCrew : Option (String × String)
  hasSession : String → Option Bool
  sessionPane : String → Option String
  respawnOk : Bool
  switchOk : Bool

/-- Default of the watch flag of recycle, from its flag registration in
init: BoolVarP(&recycleWatch, watch, w, true, ...). -/
def recycleWatchDefault : Bool := true

/-- Mirror of resolveRoleToSession: role tokens map to session names,
crew/witness/refinery requiring rig (and crew) context from the
environment or cwd detection; an unrecognized token is returned as a
literal session name. -/
def resolveRoleToSession (e : RecycleEnv) (role : String) : Except String String :=
  let r := strToLower role
  if r == "mayor" || r == "may" then .ok "gt-mayor"
  else if r == "deacon" || r == "dea" then .ok "gt-deacon"
  else if r == "crew" then
    let rc : String × String :=
      if e.gtRig == "" || e.gtCrew == "" then
        match e.cwdCrew with
        | some d => (d.1, d.2)
        | none => (e.gtRig, e.gtCrew)
      else (e.gtRig, e.gtCrew)
    if rc.1 == "" || rc.2 == "" then
      .error "cannot determine crew identity - run from crew directory or specify GT_RIG/GT_CREW"
    else .ok ("gt-" ++ rc.1 ++ "-crew-" ++ rc.2)
  else if r == "witness" || r == "wit" then
    if e.gtRig == "" then .error "cannot determine rig - set GT_RIG or run from rig context"
    else .ok ("gt-" ++ e.gtRig ++ "-witness")
  else if r == "refinery" || r == "ref" then
    if e.gtRig == "" then .error "cannot determine rig - set GT_RIG or run from rig context"
    else .ok ("gt-" ++ e.gtRig ++ "-refinery")
  else .ok role

/-- Mirror of recycleRemoteSession: check that the target session
exists (failing with the not-found report when it does not), locate its
pane, stop under dry-run, respawn the target pane, and under watch
attempt the view switch (whose own failure is non-fatal). -/
def recycleRemoteSession (e : RecycleEnv) (watch dryRun : Bool)
    (targetSession restartCmd : String) : Except String Unit × List Action :=
  match e.hasSession targetSession with
  | none => (.error "checking session", [])
  | some false =>
    (.error ("session " ++ targetSession ++ " not found - is the agent running?"), [])
  | some true =>
    match e.sessionPane targetSession with
    | none => (.error "getting target pane", [])
    | some targetPane =>
      if dryRun then (.ok (), [])
      else if !e.respawnOk then
        (.error "respawning pane", [Action.respawnPane targetPane restartCmd])
      else if watch then
        (.ok (), [Action.respawnPane targetPane restartCmd,
          Action.switchClient targetSession])
      else (.ok (), [Action.respawnPane targetPane restartCmd])

/-- Mirror of runRecycle: require tmux and the pane variable, read the
current session, resolve the optional role argument to the target
session, build the restart command, and either recycle the remote
session or respawn the caller pane in place (after the dry-run stop). -/
def runRecycle (e : RecycleEnv) (args : List String) (watch dryRun : Bool) :
    Except String Unit × List Action :=
  if !e.insideTmux then (.error "not running in tmux - cannot recycle", [])
  else if e.tmuxPane == "" then (.error "TMUX_PANE not set - cannot recycle", [])
  else
    match e.currentSession with
    | none => (.error "getting session name", [])
    | some currentSession =>
      let targetRes : Except String String :=
        match args with
        | [] => .ok currentSession
        | role :: _ => resolveRoleToSession e role
      match targetRes with
      | .error m => (.error ("resolving role: " ++ m), [])
      | .ok targetSession =>
        match buildRestartCommand targetSession with
        | .error m => (.error m, [])
        | .ok restartCmd =>
          if targetSession != currentSession then
            recycleRemoteSession e watch dryRun targetSession restartCmd
          else if dryRun then (.ok (), [])
          else
            ((if e.respawnOk then .ok () else .error "respawning pane"),
              [Action.respawnPane e.tmuxPane restartCmd])

/-- A sample sling environment for a crew member, everything healthy. -/
def crewEnv : SlingEnv where
  bdShow := fun _ => none
  gtCrew := "max"
  gtRig := "gastown"
  gtPolecat := ""
  cwdCrew := none
  tmuxEnv := "/tmp/tmux-1000/default,42,0"
  insideTmux := true
  tmuxPane := "%1"
  currentSession := some "gt-gastown-crew-max"
  cloneRoot := some "/town/gastown/crew/max"
  writeWispOk := true
  mailOk := true
  respawnOk := true

/-- A sample sling environment in which the caller is a polecat. -/
def polecatEnv : SlingEnv where
  bdShow := fun _ => none
  gtCrew := ""
  gtRig := "gastown"
  gtPolecat := "nux"
  cwdCrew := none
  tmuxEnv := "/tmp/tmux-1000/default,42,1"
  insideTmux := true
  tmuxPane := "%2"
  currentSession := some "gt-gastown-crew-nux"
  cloneRoot := some "/town/gastown/polecats/nux"
  writeWispOk := true
  mailOk := true
  respawnOk := true

/-- A sample recycle environment in which no target session exists. -/
def missEnv : RecycleEnv where
  insideTmux := true
  tmuxPane := "%0"
  currentSession := some "gt-gastown-witness"
  gtRig := ""
  gtCrew := ""
  cwdCrew := none
  hasSession := fun _ => some false
  sessionPane := fun _ => none
  respawnOk := true
  switchOk := true

/-- A sample recycle environment with a live mayor session. -/
def liveEnv : RecycleEnv where
  insideTmux := true
  tmuxPane := "%0"
  currentSession := some "gt-gastown-witness"
  gtRig := "gastown"
  gtCrew := ""
  cwdCrew := none
  hasSession := fun _ => some true
  sessionPane := fun _ => some "%7"
  respawnOk := true
  switchOk := true


/-- Helper: only a failed label lookup lands an issue in the
warn-and-drop branch. -/
theorem classify_dropped (st : QueueStore) (force : Bool) (t : TrackedIssue)
    (h : classifyIssue st force t = .droppedWarn) : st.getBeadInfo t.id = none := by
  cases hg : st.getBeadInfo t.id with
  | none => rfl
  | some info =>
    exfalso
    unfold classifyIssue at h
    rw [hg] at h
    split at h <;> simp_all
    split at h <;> simp_all
    split at h <;> simp_all
    split at h <;> simp_all

/-- Claim C2 (amended): provided every per-issue label lookup succeeds,
the four skip counters plus the candidate list partition the tracked
set: together they account for every tracked issue exactly once. -/
theorem dispatch_partition (st : QueueStore) (force : Bool)
    (tracked : List TrackedIssue)
    (h : ∀ t ∈ tracked, (st.getBeadInfo t.id).isSome = true) :
    (processTracked st force tracked).2.closed
      + (processTracked st force tracked).2.assigned
      + (processTracked st force tracked).2.queued
      + (processTracked st force tracked).2.noRig
      + (processTracked st force tracked).1.length
      = tracked.length := by
  induction tracked with
  | nil => simp [processTracked]
  | cons t rest ih =>
    have ht : (st.getBeadInfo t.id).isSome = true := h t (List.mem_cons_self _ _)
    have hrest := ih (fun u hu => h u (List.mem_cons_of_mem _ hu))
    cases hc : classifyIssue st force t with
    | droppedWarn =>
      rw [classify_dropped st force t hc] at ht
      simp at ht
    | closedSkip => simp [processTracked, hc]; omega
    | assignedSkip => simp [processTracked, hc]; omega
    | queuedSkip => simp [processTracked, hc]; omega
    | noRigSkip => simp [processTracked, hc]; omega
    | candidate rigName => simp [processTracked, hc]; omega


/-- Claim C2 witness. -/
theorem dispatch_partition_witness :
    (processTracked queuedStore false [assignedIssue, openIssue]).2.closed
      + (processTracked queuedStore false [assignedIssue, openIssue]).2.assigned
      + (processTracked queuedStore false [assignedIssue, openIssue]).2.queued
      + (processTracked queuedStore false [assignedIssue, openIssue]).2.noRig
      + (processTracked queuedStore false [assignedIssue, openIssue]).1.length
      = [assignedIssue, openIssue].length :=
  dispatch_partition queuedStore false [assignedIssue, openIssue]
    (by intro t ht; fin_cases ht <;> rfl)

/-- Claim C2 counterexample: an open, unassigned tracked issue whose
label lookup fails is dropped from the candidate list and from all four
skip counters, so the five buckets do not account for it. -/
theorem dispatch_partition_cx :
    ¬ ((processTracked failStore false [openIssue]).2.closed
      + (processTracked failStore false [openIssue]).2.assigned
      + (processTracked failStore false [openIssue]).2.queued
      + (processTracked failStore false [openIssue]).2.noRig
      + (processTracked failStore false [openIssue]).1.length
      = [openIssue].length) := by decide

/-- Claim C3: skip classification follows the fixed precedence closed,
then assigned, then already-queued, then no-rig: a closed issue is
counted closed whatever else holds; a non-closed assigned issue is
counted assigned even when it carries the queue marker or lacks a rig;
a non-closed, non-assigned issue with the queue marker is counted
already-queued even when it lacks a rig; no-rig is counted last. -/
theorem skip_precedence (st : QueueStore) (force : Bool) (t : TrackedIssue) :
    (isClosedStatus t = true → classifyIssue st force t = .closedSkip)
    ∧ (isClosedStatus t = false → isAssignedSkip force t = true →
        classifyIssue st force t = .assignedSkip)
    ∧ (∀ info, isClosedStatus t = false → isAssignedSkip force t = false →
        st.getBeadInfo t.id = some info → st.hasQueuedLabel info.labels = true →
        classifyIssue st force t = .queuedSkip)
    ∧ (∀ info, isClosedStatus t = false → isAssignedSkip force t = false →
        st.getBeadInfo t.id = some info → st.hasQueuedLabel info.labels = false →
        st.resolveRigForBead t.id = "" → classifyIssue st force t = .noRigSkip) := by
  refine ⟨?_, ?_, ?_, ?_⟩
  · intro h1; simp [classifyIssue, h1]
  · intro h1 h2; simp [classifyIssue, h1, h2]
  · intro info h1 h2 h3 h4; simp [classifyIssue, h1, h2, h3, h4]
  · intro info h1 h2 h3 h4 h5; simp [classifyIssue, h1, h2, h3, h4, h5]

/-- Claim C3 witness: an issue that is simultaneously assigned,
carrying the queue marker and without a resolvable rig is counted
under assigned alone. -/
theorem skip_precedence_witness :
    classifyIssue queuedStore false assignedIssue = .assignedSkip :=
  (skip_precedence queuedStore false assignedIssue).2.1 (by decide) (by decide)

/-- Claim C4: a dry-run and a real run of runConvoyQueue against the
same store state produce the identical candidate list (same ids, rigs
and order) and identical skip counters, and the dry run attempts no
placement. -/
theorem dry_run_equivalence (st : QueueStore) (force : Bool)
    (tracked : List TrackedIssue) :
    (runConvoyQueue st force true tracked).candidates
        = (runConvoyQueue st force false tracked).candidates
    ∧ (runConvoyQueue st force true tracked).skips
        = (runConvoyQueue st force false tracked).skips
    ∧ (runConvoyQueue st force true tracked).attemptedPlacements = [] := by
  refine ⟨rfl, rfl, rfl⟩

/-- Helper: the placement loop attempts every candidate in order,
collects exactly the failing ids, and its success count plus its
failure count is the candidate count. -/
theorem placeCandidates_spec (ok : String → Bool) (cs : List QueueCandidate) :
    (placeCandidates ok cs).attempted = cs.map QueueCandidate.id
    ∧ (placeCandidates ok cs).failedIds
        = (cs.filter (fun c => !ok c.id)).map QueueCandidate.id
    ∧ (placeCandidates ok cs).succeeded + (placeCandidates ok cs).failedIds.length
        = cs.length := by
  induction cs with
  | nil => simp [placeCandidates]
  | cons c rest ih =>
    obtain ⟨ih1, ih2, ih3⟩ := ih
    have hlen : (placeCandidates ok rest).failedIds.length
        = (rest.filter (fun c => !ok c.id)).length := by
      rw [ih2]; simp
    by_cases h : ok c.id = true
    · simp [placeCandidates, h, ih1, ih2, List.filter_cons]
      omega
    · have hb : ok c.id = false := by revert h; cases ok c.id <;> simp
      simp [placeCandidates, hb, ih1, ih2, List.filter_cons]
      omega


/-- Claim C7: placement failure of one candidate never aborts the
batch: enqueueBead is attempted for every candidate whatever earlier
outcomes were, the failing ids are reported individually, and the run
completes reporting the queued count out of the total count. -/
theorem convoy_placement_nonfatal (st : QueueStore) (force : Bool)
    (tracked : List TrackedIssue) :
    (runConvoyQueue st force false tracked).attemptedPlacements
        = (runConvoyQueue st force false tracked).candidates.map QueueCandidate.id
    ∧ (runConvoyQueue st force false tracked).failedPlacements
        = ((runConvoyQueue st force false tracked).candidates.filter
            (fun c => !st.enqueueBeadOk c.id)).map QueueCandidate.id
    ∧ (runConvoyQueue st force false tracked).queuedCount
        + (runConvoyQueue st force false tracked).failedPlacements.length
        = (runConvoyQueue st force false tracked).totalCount := by
  simpa [runConvoyQueue] using
    placeCandidates_spec st.enqueueBeadOk (processTracked st force tracked).1

/-- Claim C9: an issue that is neither closed nor skipped as assigned
and whose label lookup fails contributes to neither the candidate list
nor any of the four skip counters, and the loop continues with the
remaining tracked issues exactly as if the issue were absent. -/
theorem lookup_failure_dropped (st : QueueStore) (force : Bool)
    (t : TrackedIssue) (rest : List TrackedIssue)
    (h1 : isClosedStatus t = false) (h2 : isAssignedSkip force t = false)
    (h3 : st.getBeadInfo t.id = none) :
    processTracked st force (t :: rest) = processTracked st force rest := by
  have hc : classifyIssue st force t = .droppedWarn := by
    simp [classifyIssue, h1, h2, h3]
  simp [processTracked, hc]

/-- Claim C9 witness. -/
theorem lookup_failure_dropped_witness :
    processTracked failStore false (openIssue :: [assignedIssue])
      = processTracked failStore false [assignedIssue] :=
  lookup_failure_dropped failStore false openIssue [assignedIssue] rfl rfl rfl

/-- Validation of the spec-modelled classifier against the rows of
TestIsDoltOrWispError from the source tree. -/
theorem isDoltOrWispError_matches_test :
    isDoltOrWispError none = false
    ∧ isDoltOrWispError (some "bd create: UNIQUE constraint failed") = false
    ∧ isDoltOrWispError
        (some "bd create: panic: runtime error: invalid memory address nil pointer dereference") = true
    ∧ isDoltOrWispError (some "bd create: signal SIGSEGV: segmentation violation") = true
    ∧ isDoltOrWispError (some "bd create: panic: some dolt error") = true
    ∧ isDoltOrWispError (some "bd create: runtime error: index out of range") = true
    ∧ isDoltOrWispError (some "bd create: signal: killed") = true
    ∧ isDoltOrWispError (some "bd create: table \x27wisps\x27 does not exist") = true
    ∧ isDoltOrWispError
        (some "github.com/dolthub/dolt/go/libraries/doltcore/doltdb.(*DoltDB).SetCrashOnFatalError") = true
    ∧ isDoltOrWispError (some "bd create: not found") = false := by decide

/-- Claim C5: an existence check whose underlying bd show invocation
fails for an infrastructure reason (here a segmentation fault, which
the failure-text classifier marks as a storage-layer fault) is reported
by verifyBeadExists as the bead not being found. -/
theorem infra_fault_reported_not_found :
    isDoltOrWispError (some "bd show: signal SIGSEGV: segmentation violation") = true
    ∧ verifyBeadExists (fun _ => some "bd show: signal SIGSEGV: segmentation violation") "gt-x"
        = .error "bead gt-x not found (bd show failed)" :=
  ⟨by decide, rfl⟩


/-- Helper: the effect trace of runSling is either empty or starts with
the wisp write, followed only by effects of triggerHandoff. -/
theorem runSling_trace_shape (e : SlingEnv) (beadID s m : String) (d : Bool) :
    (runSling e beadID s m d).2 = []
    ∨ ∃ agentID, detectAgentIdentity e = .ok agentID
        ∧ (runSling e beadID s m d).2
          = Action.writeWisp agentID beadID :: (triggerHandoff e s m agentID beadID).2 := by
  unfold runSling
  cases hv : verifyBeadExists e.bdShow beadID with
  | error m1 => simp
  | ok u =>
    cases hd : detectAgentIdentity e with
    | error m1 => simp
    | ok agentID =>
      cases hr : e.cloneRoot with
      | none => simp
      | some r =>
        cases d with
        | true => simp
        | false =>
          cases hw : e.writeWispOk with
          | false => simp [hw]
          | true => exact Or.inr ⟨agentID, rfl, by simp [hw]⟩

/-- Claim C1: in sling, whenever the restart command is issued, the
wisp (WorkHook) write for the target identity stands strictly earlier
in the effect trace: the trace begins with the write and the restart
comes only afterwards; no execution restarts first. -/
theorem sling_hook_before_restart (e : SlingEnv)
    (beadID slingSubject slingMessage : String) (dryRun : Bool) (p c : String)
    (h : Action.respawnPane p c ∈ (runSling e beadID slingSubject slingMessage dryRun).2) :
    ∃ agentID tr, (runSling e beadID slingSubject slingMessage dryRun).2
        = Action.writeWisp agentID beadID :: tr
      ∧ Action.respawnPane p c ∈ tr := by
  rcases runSling_trace_shape e beadID slingSubject slingMessage dryRun with h0 | ⟨agentID, _, h0⟩
  · rw [h0] at h; simp at h
  · refine ⟨agentID, _, h0, ?_⟩
    rw [h0] at h
    rcases List.mem_cons.mp h with h1 | h1
    · exact absurd h1 (by simp)
    · exact h1

/-- Claim C1 witness. -/
theorem sling_hook_before_restart_witness :
    Action.respawnPane "%1" "gt crew at" ∈ (runSling crewEnv "gt-x" "" "" false).2
    ∧ ∃ agentID tr, (runSling crewEnv "gt-x" "" "" false).2
        = Action.writeWisp agentID "gt-x" :: tr
      ∧ Action.respawnPane "%1" "gt crew at" ∈ tr :=
  ⟨by decide,
    sling_hook_before_restart crewEnv "gt-x" "" "" false "%1" "gt crew at" (by decide)⟩

/-- Helper: with the polecat variable set, triggerHandoff fails with
the role error before issuing any effect. -/
theorem triggerHandoff_polecat (e : SlingEnv) (s m a b : String)
    (hp : ¬ e.gtPolecat = "") :
    triggerHandoff e s m a b
      = (.error "polecats cannot sling - use gt done for handoff", []) := by
  have hb : (e.gtPolecat != "") = true := bne_iff_ne.mpr hp
  unfold triggerHandoff
  simp [hb]

/-- Claim C6 counterexample: for a polecat identity the sling command
does fail with the role error and issues no restart, but the WorkHook
has already been written for the identity when the failure fires: the
effect trace is exactly the wisp write. -/
theorem sling_polecat_cx :
    (runSling polecatEnv "gt-x" "" "" false).1
      = .error "polecats cannot sling - use gt done for handoff"
    ∧ (runSling polecatEnv "gt-x" "" "" false).2
      = [Action.writeWisp "gastown/polecats/nux" "gt-x"] :=
  ⟨rfl, rfl⟩

/-- Claim C6 (amended): for a polecat identity, sling fails with the
role error and no restart is ever issued; the WorkHook write, however,
is not rolled back: when all earlier steps succeed the effect trace is
exactly the wisp write for the identity. -/
theorem sling_polecat_no_restart (e : SlingEnv)
    (beadID slingSubject slingMessage : String) (hp : ¬ e.gtPolecat = "") :
    (∀ p c, Action.respawnPane p c ∉ (runSling e beadID slingSubject slingMessage false).2)
    ∧ (∀ agentID, verifyBeadExists e.bdShow beadID = .ok ()
        → detectAgentIdentity e = .ok agentID
        → e.cloneRoot.isSome = true → e.writeWispOk = true
        → (runSling e beadID slingSubject slingMessage false).1
            = .error "polecats cannot sling - use gt done for handoff"
          ∧ (runSling e beadID slingSubject slingMessage false).2
            = [Action.writeWisp agentID beadID]) := by
  constructor
  · intro p c hmem
    rcases runSling_trace_shape e beadID slingSubject slingMessage false with h0 | ⟨agentID, _, h0⟩
    · rw [h0] at hmem; simp at hmem
    · rw [h0, triggerHandoff_polecat e slingSubject slingMessage agentID beadID hp] at hmem
      simp at hmem
  · intro agentID hv hd hr hw
    cases hr2 : e.cloneRoot with
    | none => rw [hr2] at hr; simp at hr
    | some root =>
      unfold runSling
      simp [hv, hd, hr2, hw,
        triggerHandoff_polecat e slingSubject slingMessage agentID beadID hp]

/-- Claim C6 (amended) witness. -/
theorem sling_polecat_no_restart_witness :
    Action.respawnPane "%2" "gt crew at" ∉ (runSling polecatEnv "gt-x" "" "" false).2
    ∧ (runSling polecatEnv "gt-x" "" "" false).1
        = .error "polecats cannot sling - use gt done for handoff"
    ∧ (runSling polecatEnv "gt-x" "" "" false).2
        = [Action.writeWisp "gastown/polecats/nux" "gt-x"] :=
  ⟨(sling_polecat_no_restart polecatEnv "gt-x" "" "" (by decide)).1 "%2" "gt crew at",
    (sling_polecat_no_restart polecatEnv "gt-x" "" "" (by decide)).2
      "gastown/polecats/nux" rfl rfl rfl rfl⟩

/-- Claim C8: recycling a target session other than the caller's own
that does not exist fails with the session-not-found report, and the
effect trace is empty: no session is restarted. -/
theorem recycle_missing_session (e : RecycleEnv)
    (role currentSession targetSession restartCmd : String) (watch dryRun : Bool)
    (h1 : e.insideTmux = true) (h2 : ¬ e.tmuxPane = "")
    (h3 : e.currentSession = some currentSession)
    (h4 : resolveRoleToSession e role = .ok targetSession)
    (h5 : ¬ targetSession = currentSession)
    (h6 : buildRestartCommand targetSession = .ok restartCmd)
    (h7 : e.hasSession targetSession = some false) :
    (runRecycle e [role] watch dryRun).1
      = .error ("session " ++ targetSession ++ " not found - is the agent running?")
    ∧ (runRecycle e [role] watch dryRun).2 = [] := by
  have hb : (targetSession != currentSession) = true := bne_iff_ne.mpr h5
  have hpane : (e.tmuxPane == "") = false := by
    simp only [beq_eq_false_iff_ne, ne_eq]; exact h2
  unfold runRecycle
  simp [h1, hpane, h3, h4, hb, h6, recycleRemoteSession, h7]

/-- Claim C8 witness. -/
theorem recycle_missing_session_witness :
    (runRecycle missEnv ["mayor"] true false).1
      = .error ("session " ++ "gt-mayor" ++ " not found - is the agent running?")
    ∧ (runRecycle missEnv ["mayor"] true false).2 = [] :=
  recycle_missing_session missEnv "mayor" "gt-gastown-witness" "gt-mayor" "gt may at"
    true false rfl (by decide) rfl rfl (by decide) rfl rfl

/-- Claim C10: the watch flag of recycle defaults to enabled, and with
that default a remote recycle of a live target session, once the
respawn succeeds, attempts the view switch to the target session,
issued after the restart. -/
theorem recycle_watch_default_switch (e : RecycleEnv)
    (targetSession restartCmd targetPane : String)
    (h1 : e.hasSession targetSession = some true)
    (h2 : e.sessionPane targetSession = some targetPane)
    (h3 : e.respawnOk = true) :
    recycleWatchDefault = true
    ∧ (recycleRemoteSession e recycleWatchDefault false targetSession restartCmd).2
      = [Action.respawnPane targetPane restartCmd, Action.switchClient targetSession]
    ∧ (recycleRemoteSession e recycleWatchDefault false targetSession restartCmd).1
      = .ok () := by
  refine ⟨rfl, ?_, ?_⟩ <;> simp [recycleRemoteSession, recycleWatchDefault, h1, h2, h3]

/-- Claim C10 witness. -/
theorem recycle_watch_default_switch_witness :
    recycleWatchDefault = true
    ∧ (recycleRemoteSession liveEnv recycleWatchDefault false "gt-mayor" "gt may at").2
      = [Action.respawnPane "%7" "gt may at", Action.switchClient "gt-mayor"]
    ∧ (recycleRemoteSession liveEnv recycleWatchDefault false "gt-mayor" "gt may at").1
      = .ok () :=
  recycle_watch_default_switch liveEnv "gt-mayor" "gt may at" "%7" rfl rfl rfl

end Gastown
